import Mathlib

/-!
Verification of the coupon/commission evaluator (`src/server.py`) and the
verification-code lifecycle (`src/verification_service.py`) of the
marketplace backend.  Document-store collections are modelled as lists in
natural (insertion) order; `find_one` is the first list element matching
the query; datetimes are integers; Python floats are rationals.
-/

/-- Python truthiness of an `Optional[str]`: `None` and `""` are falsy. -/
def pyTruthyStr (o : Option String) : Bool := o.getD "" != ""

/-- Python truthiness of an `Optional[int]` counter: `None` and `0` are falsy. -/
def pyTruthyNat (o : Option Nat) : Bool := o.getD 0 != 0

/-- Python truthiness of an `Optional[float]`: `None` and `0.0` are falsy. -/
def pyTruthyQ (o : Option ℚ) : Bool := o.getD 0 != 0

/-- Python truthiness of an `Optional[List]`: `None` and `[]` are falsy. -/
def pyTruthyList {α : Type} (o : Option (List α)) : Bool := !(o.getD []).isEmpty

/-- Coupon document (models.py `Coupon`); datetimes are integers. -/
structure Coupon where
  id : String
  code : String
  ctype : String
  value : ℚ
  scope : String
  scope_value : Option String
  min_order_amount : Option ℚ
  max_discount : Option ℚ
  usage_limit : Option Nat
  usage_per_user : Option Nat
  used_count : Nat
  starts_at : Option Int
  expires_at : Option Int
  is_active : Bool
deriving Repr, DecidableEq

/-- Coupon redemption record (models.py `CouponUsage`), the fields read by
`apply_coupon`'s per-user count query. -/
structure CouponUsage where
  coupon_id : String
  user_id : String
deriving Repr, DecidableEq

/-- Product document fields read by `apply_coupon`'s scope check. -/
structure Product where
  id : String
  category : String
  seller_id : Option String
deriving Repr, DecidableEq

/-- Cart line item (models.py `CartItem`). -/
structure CartItem where
  product_id : String
  quantity : Nat
  price : ℚ
deriving Repr, DecidableEq

/-- Commission rule document (models.py `CommissionRule`). -/
structure CommissionRule where
  category : Option String
  commission_rate : ℚ
  min_order_value : Option ℚ
  max_order_value : Option ℚ
  is_active : Bool
deriving Repr, DecidableEq

/-- Seller profile fields read by `calculate_commission`;
`commission_rate` is optional because the code reads it with
`seller.get("commission_rate", 10.0)`. -/
structure SellerProfile where
  user_id : String
  commission_rate : Option ℚ
deriving Repr, DecidableEq

/-- `coupons_collection.find_one({"code": coupon_code, "is_active": True})`. -/
def couponLookup (coupons : List Coupon) (coupon_code : String) : Option Coupon :=
  coupons.find? (fun c => c.code == coupon_code && c.is_active)

/-- `products_collection.find_one({"id": item["product_id"]})`. -/
def productLookup (products : List Product) (pid : String) : Option Product :=
  products.find? (fun p => p.id == pid)

/-- `if coupon.get("starts_at") and datetime.now(timezone.utc) < coupon["starts_at"]`. -/
def startsGuard (now : Int) (c : Coupon) : Bool :=
  match c.starts_at with
  | some s => decide (now < s)
  | none => false

/-- `if coupon.get("expires_at") and datetime.now(timezone.utc) > coupon["expires_at"]`. -/
def expiresGuard (now : Int) (c : Coupon) : Bool :=
  match c.expires_at with
  | some e => decide (e < now)
  | none => false

/-- `if coupon.get("usage_limit") and coupon.get("used_count", 0) >= coupon["usage_limit"]`. -/
def usageLimitGuard (c : Coupon) : Bool :=
  pyTruthyNat c.usage_limit && decide (c.usage_limit.getD 0 ≤ c.used_count)

/-- Per-user usage count: `coupon_usage_collection.count_documents({"coupon_id": ..., "user_id": ...})`. -/
def userUsageCount (usage : List CouponUsage) (cid uid : String) : Nat :=
  (usage.filter (fun u => u.coupon_id == cid && u.user_id == uid)).length

/-- `if user_id and coupon.get("usage_per_user")` followed by
`user_usage >= coupon["usage_per_user"]`, flattened into one boolean. -/
def perUserGuard (usage : List CouponUsage) (c : Coupon) (user_id : Option String) : Bool :=
  pyTruthyStr user_id && pyTruthyNat c.usage_per_user &&
    decide (c.usage_per_user.getD 0 ≤ userUsageCount usage c.id (user_id.getD ""))

/-- `if coupon.get("min_order_amount") and cart_total < coupon["min_order_amount"]`. -/
def minOrderGuard (cart_total : ℚ) (c : Coupon) : Bool :=
  pyTruthyQ c.min_order_amount && decide (cart_total < c.min_order_amount.getD 0)

/-- Two-digit zero padding used by the amount formatter. -/
def pad2 (n : Nat) : String := if n < 10 then "0" ++ toString n else toString n

/-- Two-decimal rendering of an amount (the Python f-string `:.2f`). -/
def formatAmount (q : ℚ) : String :=
  let cents : Int := ⌊q * 100 + (1 : ℚ) / 2⌋
  let sign := if cents < 0 then "-" else ""
  sign ++ toString (cents.natAbs / 100) ++ "." ++ pad2 (cents.natAbs % 100)

/-- `f"Minimum order amount ${coupon['min_order_amount']:.2f} required"`. -/
def minOrderMsg (c : Coupon) : String :=
  "Minimum order amount $" ++ formatAmount (c.min_order_amount.getD 0) ++ " required"

/-- Scope predicate on a single product (the `elif` chain inside the
cart-items loop); a `None` `scope_value` never equals the product's
required string fields, and in the seller branch both sides are optional. -/
def itemEligible (c : Coupon) (p : Product) : Bool :=
  if c.scope == "category" then c.scope_value == some p.category
  else if c.scope == "product" then c.scope_value == some p.id
  else if c.scope == "seller" then p.seller_id == c.scope_value
  else false

/-- One iteration of the cart-items loop: look up the product, skip missing
products, accumulate `scope_valid` and `eligible_total`. -/
def scopeStep (products : List Product) (c : Coupon) (acc : Bool × ℚ) (item : CartItem) :
    Bool × ℚ :=
  match productLookup products item.product_id with
  | none => acc
  | some p =>
      if itemEligible c p then (true, acc.2 + (item.quantity : ℚ) * item.price) else acc

/-- The cart-items loop of `apply_coupon`: returns `(scope_valid, eligible_total)`. -/
def scopeScan (products : List Product) (c : Coupon) (items : List CartItem) : Bool × ℚ :=
  items.foldl (scopeStep products c) (false, 0)

/-- `if coupon["scope"] != "global" and cart_items:`. -/
def scopedBranch (c : Coupon) (cart_items : Option (List CartItem)) : Bool :=
  c.scope != "global" && pyTruthyList cart_items

/-- Discount computation by coupon type, including the final cap at the
(possibly scope-narrowed) cart total. -/
def computeDiscount (c : Coupon) (total : ℚ) : ℚ :=
  let d : ℚ :=
    if c.ctype == "percentage" then
      let d0 := total * (c.value / 100)
      if pyTruthyQ c.max_discount then min d0 (c.max_discount.getD 0) else d0
    else if c.ctype == "fixed" then c.value
    else if c.ctype == "free_shipping" then 10
    else if c.ctype == "bogo" then total * (1 / 2)
    else 0
  min d total

/-- `apply_coupon(cart_total, coupon_code, user_id, cart_items)` from
`src/server.py`, over explicit collection states; the happy path of the
`try` block (faults are modelled separately by `applyCouponSafe`). -/
def applyCoupon (now : Int) (coupons : List Coupon) (usage : List CouponUsage)
    (products : List Product) (cart_total : ℚ) (coupon_code : String)
    (user_id : Option String) (cart_items : Option (List CartItem)) : ℚ × String :=
  match couponLookup coupons coupon_code with
  | none => (0, "Invalid coupon code")
  | some coupon =>
    if startsGuard now coupon then (0, "Coupon is not yet active")
    else if expiresGuard now coupon then (0, "Coupon has expired")
    else if usageLimitGuard coupon then (0, "Coupon usage limit exceeded")
    else if perUserGuard usage coupon user_id then
      (0, "You have reached the usage limit for this coupon")
    else if minOrderGuard cart_total coupon then (0, minOrderMsg coupon)
    else if scopedBranch coupon cart_items then
      let scan := scopeScan products coupon (cart_items.getD [])
      if !scan.1 then (0, "Coupon is not applicable to items in your cart")
      else if scan.2 > 0 then (computeDiscount coupon scan.2, "Coupon applied successfully")
      else (computeDiscount coupon cart_total, "Coupon applied successfully")
    else (computeDiscount coupon cart_total, "Coupon applied successfully")

/-- The category-rule query actually executed by `calculate_commission`.
The Python dict literal writes two `"$or"` keys — one for the
`min_order_value` bound and one for `max_order_value` — and the second
silently overwrites the first, so only the `max_order_value` bound
reaches the store. -/
def catRuleQuery (rules : List CommissionRule) (category : Option String) (total : ℚ) :
    Option CommissionRule :=
  rules.find? (fun r => r.category == category && r.is_active &&
    (match r.max_order_value with
     | none => true
     | some m => decide (total ≤ m)))

/-- `commission_rules_collection.find_one({"category": None, "is_active": True})`. -/
def defaultRuleQuery (rules : List CommissionRule) : Option CommissionRule :=
  rules.find? (fun r => r.category == none && r.is_active)

/-- `seller_profiles_collection.find_one({"user_id": seller_id})`. -/
def sellerLookup (sellers : List SellerProfile) (seller_id : String) : Option SellerProfile :=
  sellers.find? (fun s => s.user_id == seller_id)

/-- `calculate_commission(order_total, seller_id, category)` from
`src/server.py`, over explicit collection states; happy path of the `try`
block (faults are modelled separately by `calculateCommissionSafe`). -/
def calculateCommission (rules : List CommissionRule) (sellers : List SellerProfile)
    (order_total : ℚ) (seller_id : String) (category : Option String) : ℚ × ℚ :=
  let catRule := if pyTruthyStr category then catRuleQuery rules category order_total else none
  let rule := match catRule with
    | some r => some r
    | none => defaultRuleQuery rules
  let rate : ℚ :=
    match rule with
    | some r => r.commission_rate
    | none =>
        match sellerLookup sellers seller_id with
        | some s => s.commission_rate.getD 10
        | none => 10
  (rate, order_total * (rate / 100))

/-- Modelled from the spec: the rule-selection query as §3/§4.2 of the spec
word it — a category rule applies only when BOTH the `min_order_value` and
`max_order_value` bounds contain the order total (an unset bound is
unconstrained). Kept beside `catRuleQuery` for comparison. -/
def catRuleSpec (rules : List CommissionRule) (category : Option String) (total : ℚ) :
    Option CommissionRule :=
  rules.find? (fun r => r.category == category && r.is_active &&
    (match r.min_order_value with
     | none => true
     | some m => decide (m ≤ total)) &&
    (match r.max_order_value with
     | none => true
     | some m => decide (total ≤ m)))

/-- Modelled from the spec: `calculateCommission` with the spec's
rule-selection query, for comparison with the code's behaviour. -/
def calculateCommissionSpec (rules : List CommissionRule) (sellers : List SellerProfile)
    (order_total : ℚ) (seller_id : String) (category : Option String) : ℚ × ℚ :=
  let catRule := if pyTruthyStr category then catRuleSpec rules category order_total else none
  let rule := match catRule with
    | some r => some r
    | none => defaultRuleQuery rules
  let rate : ℚ :=
    match rule with
    | some r => r.commission_rate
    | none =>
        match sellerLookup sellers seller_id with
        | some s => s.commission_rate.getD 10
        | none => 10
  (rate, order_total * (rate / 100))

/-- Whether a cart item is counted by the scope check: its product exists
in the store and satisfies the scope predicate. -/
def itemMatches (products : List Product) (c : Coupon) (item : CartItem) : Bool :=
  match productLookup products item.product_id with
  | some p => itemEligible c p
  | none => false

/-- The eligible subtotal: sum of `quantity * price` over the cart items
matching the coupon scope. -/
def eligibleSubtotal (products : List Product) (c : Coupon) (items : List CartItem) : ℚ :=
  ((items.filter (itemMatches products c)).map
    (fun item => (item.quantity : ℚ) * item.price)).sum

/-- The scope check rejects the cart: the scoped branch is taken and no
item matches. -/
def scopeRejected (products : List Product) (c : Coupon)
    (cart_items : Option (List CartItem)) : Bool :=
  scopedBranch c cart_items && !(scopeScan products c (cart_items.getD [])).1

/-- The total the discount is actually computed against: the eligible
subtotal when the scoped branch is taken and that subtotal is positive,
the caller's `cart_total` otherwise. -/
def effectiveTotal (products : List Product) (c : Coupon)
    (cart_items : Option (List CartItem)) (cart_total : ℚ) : ℚ :=
  if scopedBranch c cart_items then
    if (scopeScan products c (cart_items.getD [])).2 > 0 then
      (scopeScan products c (cart_items.getD [])).2
    else cart_total
  else cart_total

/-- The store reads performed inside the `try` blocks of `apply_coupon`
and `calculate_commission`; each read may raise (`Except.error`),
modelling a transient store fault. -/
structure DbOps where
  findCoupon : String → Except String (Option Coupon)
  countUsage : String → String → Except String Nat
  findProduct : String → Except String (Option Product)
  findCatRule : Option String → ℚ → Except String (Option CommissionRule)
  findDefaultRule : Unit → Except String (Option CommissionRule)
  findSeller : String → Except String (Option SellerProfile)

/-- Fault-free reads backed by the explicit collection states. -/
def pureOps (coupons : List Coupon) (usage : List CouponUsage) (products : List Product)
    (rules : List CommissionRule) (sellers : List SellerProfile) : DbOps where
  findCoupon := fun code => .ok (couponLookup coupons code)
  countUsage := fun cid uid => .ok (userUsageCount usage cid uid)
  findProduct := fun pid => .ok (productLookup products pid)
  findCatRule := fun cat total => .ok (catRuleQuery rules cat total)
  findDefaultRule := fun _ => .ok (defaultRuleQuery rules)
  findSeller := fun sid => .ok (sellerLookup sellers sid)

/-- The cart-items loop with a fallible product lookup. -/
def scopeScanM (ops : DbOps) (c : Coupon) (items : List CartItem) :
    Except String (Bool × ℚ) :=
  items.foldlM (fun acc item => do
    let pOpt ← ops.findProduct item.product_id
    match pOpt with
    | none => pure acc
    | some p =>
        if itemEligible c p then pure (true, acc.2 + (item.quantity : ℚ) * item.price)
        else pure acc) (false, 0)

/-- The body of `apply_coupon`'s `try` block with fallible store reads. -/
def applyCouponBody (ops : DbOps) (now : Int) (cart_total : ℚ) (coupon_code : String)
    (user_id : Option String) (cart_items : Option (List CartItem)) :
    Except String (ℚ × String) := do
  let couponOpt ← ops.findCoupon coupon_code
  match couponOpt with
  | none => pure (0, "Invalid coupon code")
  | some coupon =>
    if startsGuard now coupon then pure (0, "Coupon is not yet active")
    else if expiresGuard now coupon then pure (0, "Coupon has expired")
    else if usageLimitGuard coupon then pure (0, "Coupon usage limit exceeded")
    else do
      let perUserHit ←
        if pyTruthyStr user_id && pyTruthyNat coupon.usage_per_user then do
          let n ← ops.countUsage coupon.id (user_id.getD "")
          pure (decide (coupon.usage_per_user.getD 0 ≤ n))
        else pure false
      if perUserHit then pure (0, "You have reached the usage limit for this coupon")
      else if minOrderGuard cart_total coupon then pure (0, minOrderMsg coupon)
      else if scopedBranch coupon cart_items then do
        let scan ← scopeScanM ops coupon (cart_items.getD [])
        if !scan.1 then pure (0, "Coupon is not applicable to items in your cart")
        else if scan.2 > 0 then
          pure (computeDiscount coupon scan.2, "Coupon applied successfully")
        else pure (computeDiscount coupon cart_total, "Coupon applied successfully")
      else pure (computeDiscount coupon cart_total, "Coupon applied successfully")

/-- `apply_coupon` including its `except` clause: any raised fault is
converted to `(0.0, "Error applying coupon")`. -/
def applyCouponSafe (ops : DbOps) (now : Int) (cart_total : ℚ) (coupon_code : String)
    (user_id : Option String) (cart_items : Option (List CartItem)) : ℚ × String :=
  match applyCouponBody ops now cart_total coupon_code user_id cart_items with
  | .ok r => r
  | .error _ => (0, "Error applying coupon")

/-- The body of `calculate_commission`'s `try` block with fallible store reads. -/
def calculateCommissionBody (ops : DbOps) (order_total : ℚ) (seller_id : String)
    (category : Option String) : Except String (ℚ × ℚ) := do
  let catRule ←
    if pyTruthyStr category then ops.findCatRule category order_total
    else pure none
  let rule ←
    match catRule with
    | some r => pure (some r)
    | none => ops.findDefaultRule ()
  let rate : ℚ ←
    match rule with
    | some r => pure r.commission_rate
    | none => do
        let sellerOpt ← ops.findSeller seller_id
        pure (match sellerOpt with
              | some s => s.commission_rate.getD 10
              | none => (10 : ℚ))
  pure (rate, order_total * (rate / 100))

/-- `calculate_commission` including its `except` clause: any raised fault
is converted to the fallback `(10.0, order_total * 0.1)`. -/
def calculateCommissionSafe (ops : DbOps) (order_total : ℚ) (seller_id : String)
    (category : Option String) : ℚ × ℚ :=
  match calculateCommissionBody ops order_total seller_id category with
  | .ok r => r
  | .error _ => (10, order_total * (1 / 10))

/-- Stored verification-code document (`verification_codes_collection`). -/
structure VRecord where
  identifier : String
  hashed_code : String
  method : String
  purpose : String
  created_at : Int
  expires_at : Int
  verified : Bool
  attempts : Nat
  verified_at : Option Int
deriving Repr, DecidableEq

/-- Query `{"identifier": identifier, "purpose": purpose}`. -/
def pairMatch (identifier purpose : String) (r : VRecord) : Bool :=
  r.identifier == identifier && r.purpose == purpose

/-- The `find_one` filter of `verify_code`: identifier, hashed code and
purpose match, the record is unverified, and `expires_at` is strictly in
the future (`{"$gt": now}`). -/
def vMatch (hash : String → String) (now : Int) (identifier code purpose : String)
    (r : VRecord) : Bool :=
  r.identifier == identifier && r.hashed_code == hash code && r.purpose == purpose &&
    !r.verified && decide (now < r.expires_at)

/-- `update_one`: apply `f` to the first list element satisfying `p`. -/
def updateFirst {α : Type} (p : α → Bool) (f : α → α) : List α → List α
  | [] => []
  | x :: xs => if p x then f x :: xs else x :: updateFirst p f xs

/-- Ten minutes, in the integer time unit (seconds). -/
def tenMinutes : Int := 600

/-- The document inserted by `store_verification_code`: hashed code (never
the plaintext), `created_at = now`, `expires_at = now + 10 minutes`,
`verified = False`, `attempts = 0`. -/
def freshRecord (hash : String → String) (now : Int)
    (identifier code method purpose : String) : VRecord :=
  { identifier := identifier
    hashed_code := hash code
    method := method
    purpose := purpose
    created_at := now
    expires_at := now + tenMinutes
    verified := false
    attempts := 0
    verified_at := none }

/-- `VerificationService.store_verification_code` from
`src/verification_service.py`: delete every record for
`(identifier, purpose)`, then insert one fresh hashed record; returns the
new collection state and the success flag. `hash` abstracts
`hashlib.sha256(...).hexdigest()`. -/
def storeVerificationCode (hash : String → String) (now : Int) (db : List VRecord)
    (identifier code method purpose : String) : List VRecord × Bool :=
  let kept := db.filter (fun r => !pairMatch identifier purpose r)
  (kept ++ [freshRecord hash now identifier code method purpose], true)

/-- `VerificationService.verify_code` from `src/verification_service.py`:
on a match, mark the matched record verified with a `verified_at`
timestamp and succeed; otherwise increment `attempts` on the first record
for the pair (if any) and fail. Returns the new collection state and the
outcome. -/
def verifyCode (hash : String → String) (now : Int) (db : List VRecord)
    (identifier code purpose : String) : List VRecord × Bool :=
  if db.any (vMatch hash now identifier code purpose) then
    (updateFirst (vMatch hash now identifier code purpose)
      (fun r => { r with verified := true, verified_at := some now }) db, true)
  else
    (updateFirst (pairMatch identifier purpose)
      (fun r => { r with attempts := r.attempts + 1 }) db, false)

/-- Baseline global percentage coupon used by concrete instances below. -/
def baseCoupon : Coupon :=
  { id := "cid1", code := "SAVE10", ctype := "percentage", value := 10,
    scope := "global", scope_value := none, min_order_amount := none,
    max_discount := none, usage_limit := none, usage_per_user := none,
    used_count := 0, starts_at := none, expires_at := none, is_active := true }

/-- The spec's end-to-end example coupon `SAVE10`. -/
def save10 : Coupon :=
  { baseCoupon with max_discount := some 20, usage_limit := some 100, used_count := 5 }

/-- Category rule whose `min_order_value` bound excludes an order of 500. -/
def minBoundRule : CommissionRule :=
  { category := some "electronics", commission_rate := 20,
    min_order_value := some 1000, max_order_value := some 2000, is_active := true }

/-- The spec's end-to-end example commission rule. -/
def electronicsRule : CommissionRule :=
  { category := some "electronics", commission_rate := 15,
    min_order_value := some 0, max_order_value := some 1000, is_active := true }

/-- Category-scoped percentage coupon for the `books` category. -/
def booksCoupon : Coupon :=
  { baseCoupon with id := "cid2", code := "CAT", scope := "category",
                    scope_value := some "books" }

/-- A product in the `books` category. -/
def bookProduct : Product := { id := "p1", category := "books", seller_id := none }

/-- A cart line of the book with zero unit price (line total 0). -/
def zeroPriceItem : CartItem := { product_id := "p1", quantity := 1, price := 0 }

/-- A cart line of the book with positive line total 30. -/
def posPriceItem : CartItem := { product_id := "p1", quantity := 2, price := 15 }

/-- Inactive coupon whose `expires_at` is in the past. -/
def inactiveExpired : Coupon :=
  { baseCoupon with code := "DEAD", expires_at := some 0, is_active := false }

/-- Active coupon whose `expires_at` is in the past. -/
def activeExpired : Coupon :=
  { baseCoupon with code := "EXP", expires_at := some 0 }

/-- Percentage coupon whose `max_discount` is present but equals `0`. -/
def maxZeroCoupon : Coupon :=
  { baseCoupon with code := "MZ", max_discount := some 0 }

/-- Fixed coupon of value 5. -/
def fixed5Coupon : Coupon :=
  { baseCoupon with code := "F5", ctype := "fixed", value := 5 }

/-- Coupon with a per-user cap of 1 redemption. -/
def perUserCoupon : Coupon :=
  { baseCoupon with code := "PU", usage_per_user := some 1 }

/-- Usage history in which every user has exhausted `perUserCoupon`. -/
def exhaustedUsage : List CouponUsage :=
  [{ coupon_id := "cid1", user_id := "u1" }, { coupon_id := "cid1", user_id := "u2" }]

/-- Store interface in which every read raises a fault. -/
def errOps : DbOps :=
  { findCoupon := fun _ => .error "store unreachable"
    countUsage := fun _ _ => .error "store unreachable"
    findProduct := fun _ => .error "store unreachable"
    findCatRule := fun _ _ => .error "store unreachable"
    findDefaultRule := fun _ => .error "store unreachable"
    findSeller := fun _ => .error "store unreachable" }

/-- An unverified stored code record for `("a", "v")`, expiring at 600. -/
def sampleRecord : VRecord :=
  { identifier := "a", hashed_code := "1", method := "email", purpose := "v",
    created_at := 0, expires_at := 600, verified := false, attempts := 0,
    verified_at := none }

lemma scopeStep_matches (products : List Product) (c : Coupon) (acc : Bool × ℚ)
    (item : CartItem) (hm : itemMatches products c item = true) :
    scopeStep products c acc item = (true, acc.2 + (item.quantity : ℚ) * item.price) := by
  unfold scopeStep
  unfold itemMatches at hm
  cases h : productLookup products item.product_id with
  | none => rw [h] at hm; exact absurd hm (by simp)
  | some p =>
      rw [h] at hm
      simp only at hm
      simp [hm]

lemma scopeStep_skips (products : List Product) (c : Coupon) (acc : Bool × ℚ)
    (item : CartItem) (hm : itemMatches products c item = false) :
    scopeStep products c acc item = acc := by
  unfold scopeStep
  unfold itemMatches at hm
  cases h : productLookup products item.product_id with
  | none => rfl
  | some p =>
      rw [h] at hm
      simp only at hm
      simp [hm]

lemma eligibleSubtotal_cons (products : List Product) (c : Coupon) (item : CartItem)
    (tl : List CartItem) :
    eligibleSubtotal products c (item :: tl) =
      (if itemMatches products c item then (item.quantity : ℚ) * item.price else 0) +
        eligibleSubtotal products c tl := by
  unfold eligibleSubtotal
  by_cases hm : itemMatches products c item = true
  · simp [List.filter_cons, hm]
  · simp only [Bool.not_eq_true] at hm
    simp [List.filter_cons, hm]

lemma scopeScan_go (products : List Product) (c : Coupon) (items : List CartItem) :
    ∀ acc : Bool × ℚ, items.foldl (scopeStep products c) acc =
      (acc.1 || items.any (itemMatches products c), acc.2 + eligibleSubtotal products c items) := by
  induction items with
  | nil => intro acc; simp [eligibleSubtotal]
  | cons hd tl ih =>
      intro acc
      by_cases hm : itemMatches products c hd = true
      · rw [List.foldl_cons, scopeStep_matches products c acc hd hm, ih,
          eligibleSubtotal_cons]
        simp [List.any_cons, hm, add_assoc]
      · simp only [Bool.not_eq_true] at hm
        rw [List.foldl_cons, scopeStep_skips products c acc hd hm, ih,
          eligibleSubtotal_cons]
        simp [List.any_cons, hm]

lemma scopeScan_fst (products : List Product) (c : Coupon) (items : List CartItem) :
    (scopeScan products c items).1 = items.any (itemMatches products c) := by
  unfold scopeScan; rw [scopeScan_go]; simp

lemma scopeScan_snd (products : List Product) (c : Coupon) (items : List CartItem) :
    (scopeScan products c items).2 = eligibleSubtotal products c items := by
  unfold scopeScan; rw [scopeScan_go]; simp

/-- Master shape of the success path of `apply_coupon`: when the coupon is
found and every validation guard passes, the result is the type-dispatched
discount over the effective total together with the success message. -/
lemma applyCoupon_success_form (now : Int) (cs : List Coupon) (us : List CouponUsage)
    (ps : List Product) (total : ℚ) (code : String) (uid : Option String)
    (items : Option (List CartItem)) (c : Coupon)
    (hfind : couponLookup cs code = some c)
    (h1 : startsGuard now c = false) (h2 : expiresGuard now c = false)
    (h3 : usageLimitGuard c = false) (h4 : perUserGuard us c uid = false)
    (h5 : minOrderGuard total c = false)
    (h6 : scopeRejected ps c items = false) :
    applyCoupon now cs us ps total code uid items
      = (computeDiscount c (effectiveTotal ps c items total), "Coupon applied successfully") := by
  unfold applyCoupon
  rw [hfind]
  simp only [h1, h2, h3, h4, h5, Bool.false_eq_true, if_false]
  by_cases hb : scopedBranch c items = true
  · have hs : (scopeScan ps c (items.getD [])).1 = true := by
      unfold scopeRejected at h6
      rw [hb] at h6
      simpa using h6
    simp only [hb, if_true, hs, Bool.not_true, Bool.false_eq_true, if_false,
      effectiveTotal]
    by_cases hpos : (scopeScan ps c (items.getD [])).2 > 0
    · simp [hpos]
    · simp [hpos]
  · have hb' : scopedBranch c items = false := by simpa using hb
    simp [hb', effectiveTotal]

lemma vMatch_pairMatch (hash : String → String) (now : Int) (identifier code purpose : String)
    (r : VRecord) (h : vMatch hash now identifier code purpose r = true) :
    pairMatch identifier purpose r = true := by
  unfold vMatch at h
  simp only [Bool.and_eq_true] at h
  obtain ⟨⟨⟨⟨hi, hh⟩, hp⟩, hv⟩, he⟩ := h
  unfold pairMatch
  simp [hi, hp]

lemma vMatch_eq_false_of_pairMatch (hash : String → String) (now : Int)
    (identifier code purpose : String) (r : VRecord)
    (hp : pairMatch identifier purpose r = false) :
    vMatch hash now identifier code purpose r = false := by
  cases hvm : vMatch hash now identifier code purpose r with
  | false => rfl
  | true =>
      exact absurd (vMatch_pairMatch hash now identifier code purpose r hvm) (by simp [hp])

lemma updateFirst_of_any_eq_false {α : Type} (p : α → Bool) (f : α → α) (l : List α)
    (h : l.any p = false) : updateFirst p f l = l := by
  induction l with
  | nil => rfl
  | cons hd tl ih =>
      simp only [List.any_cons, Bool.or_eq_false_iff] at h
      simp [updateFirst, h.1, ih h.2]

lemma updateFirst_attempts_sum (identifier purpose : String) (db : List VRecord) :
    ((updateFirst (pairMatch identifier purpose)
        (fun r => { r with attempts := r.attempts + 1 }) db).map VRecord.attempts).sum
      = (db.map VRecord.attempts).sum +
          (if db.any (pairMatch identifier purpose) then 1 else 0) := by
  induction db with
  | nil => simp [updateFirst]
  | cons hd tl ih =>
      by_cases h : pairMatch identifier purpose hd = true
      · simp only [updateFirst, h, if_true, List.map_cons, List.sum_cons, List.any_cons,
          Bool.true_or]
        omega
      · simp only [Bool.not_eq_true] at h
        simp only [updateFirst, h, Bool.false_eq_true, if_false, List.map_cons,
          List.sum_cons, List.any_cons, Bool.false_or, ih]
        split <;> omega

lemma updateFirst_success_mem (hash : String → String) (now : Int)
    (identifier code purpose : String) (db : List VRecord)
    (h : db.any (vMatch hash now identifier code purpose) = true) :
    ∃ r ∈ updateFirst (vMatch hash now identifier code purpose)
        (fun r => { r with verified := true, verified_at := some now }) db,
      pairMatch identifier purpose r = true ∧ r.hashed_code = hash code ∧
        r.verified = true ∧ r.verified_at = some now := by
  induction db with
  | nil => simp at h
  | cons hd tl ih =>
      by_cases h1 : vMatch hash now identifier code purpose hd = true
      · refine ⟨{ hd with verified := true, verified_at := some now }, ?_, ?_, ?_, rfl, rfl⟩
        · simp [updateFirst, h1]
        · have := vMatch_pairMatch hash now identifier code purpose hd h1
          unfold pairMatch at this ⊢
          simpa using this
        · unfold vMatch at h1
          simp only [Bool.and_eq_true] at h1
          obtain ⟨⟨⟨⟨hi, hh⟩, hp⟩, hv⟩, he⟩ := h1
          simpa using hh
      · have h1' : vMatch hash now identifier code purpose hd = false := by simpa using h1
        have htl : tl.any (vMatch hash now identifier code purpose) = true := by
          simpa [List.any_cons, h1'] using h
        obtain ⟨r, hr, hrest⟩ := ih htl
        exact ⟨r, by simp [updateFirst, h1', hr], hrest⟩

lemma verify_once_aux (hash : String → String) (t1 t2 : Int)
    (identifier code purpose : String) (db : List VRecord)
    (hlen : (db.filter (pairMatch identifier purpose)).length ≤ 1)
    (hany : db.any (vMatch hash t1 identifier code purpose) = true) :
    (updateFirst (vMatch hash t1 identifier code purpose)
        (fun r => { r with verified := true, verified_at := some t1 }) db).any
      (vMatch hash t2 identifier code purpose) = false := by
  induction db with
  | nil => simp at hany
  | cons hd tl ih =>
      by_cases h1 : vMatch hash t1 identifier code purpose hd = true
      · have hpair : pairMatch identifier purpose hd = true :=
          vMatch_pairMatch hash t1 identifier code purpose hd h1
        have htl : ∀ r ∈ tl, pairMatch identifier purpose r = false := by
          intro r hr
          by_contra hc
          simp only [Bool.not_eq_false] at hc
          have hmem : r ∈ tl.filter (pairMatch identifier purpose) :=
            List.mem_filter.mpr ⟨hr, hc⟩
          have : 0 < (tl.filter (pairMatch identifier purpose)).length :=
            List.length_pos_of_mem hmem
          simp only [List.filter_cons, hpair, if_true, List.length_cons] at hlen
          omega
        have h2 : vMatch hash t2 identifier code purpose
            ({ hd with verified := true, verified_at := some t1 }) = false := by
          simp [vMatch]
        have h3 : tl.any (vMatch hash t2 identifier code purpose) = false := by
          rw [List.any_eq_false]
          intro r hr
          simp only [Bool.not_eq_true]
          exact vMatch_eq_false_of_pairMatch hash t2 identifier code purpose r (htl r hr)
        simp [updateFirst, h1, List.any_cons, h2, h3]
      · have h1' : vMatch hash t1 identifier code purpose hd = false := by simpa using h1
        have htl_any : tl.any (vMatch hash t1 identifier code purpose) = true := by
          simpa [List.any_cons, h1'] using hany
        by_cases hp : pairMatch identifier purpose hd = true
        · exfalso
          obtain ⟨r, hr, hvm⟩ := List.any_eq_true.mp htl_any
          have hrp : pairMatch identifier purpose r = true :=
            vMatch_pairMatch hash t1 identifier code purpose r hvm
          have : 0 < (tl.filter (pairMatch identifier purpose)).length :=
            List.length_pos_of_mem (List.mem_filter.mpr ⟨hr, hrp⟩)
          simp only [List.filter_cons, hp, if_true, List.length_cons] at hlen
          omega
        · have hp' : pairMatch identifier purpose hd = false := by simpa using hp
          have hlen' : (tl.filter (pairMatch identifier purpose)).length ≤ 1 := by
            simpa [List.filter_cons, hp'] using hlen
          have h2 : vMatch hash t2 identifier code purpose hd = false :=
            vMatch_eq_false_of_pairMatch hash t2 identifier code purpose hd hp'
          simp [updateFirst, h1', List.any_cons, h2, ih hlen' htl_any]

/-- C1: evaluation of `calculate_commission` at the failing input. The
Python query dict writes two `"$or"` keys and the second overwrites the
first, so the `min_order_value` bound is never checked: with the sole rule
`{category:"electronics", commission_rate:20, min_order_value:1000,
max_order_value:2000}` and `order_total = 500`, the code selects the rule
and returns `(20, 100)`, while the resolution the spec describes (both
bounds must contain the total) would fall through to the 10% fallback,
`(10, 50)`. The claim's own end-to-end example `(15, 75)` does hold. -/
theorem c1_commission_min_bound_dead :
    calculateCommission [minBoundRule] [] 500 "s1" (some "electronics") = (20, 100) ∧
    calculateCommissionSpec [minBoundRule] [] 500 "s1" (some "electronics") = (10, 50) ∧
    calculateCommission [electronicsRule] [] 500 "s1" (some "electronics") = (15, 75) := by
  refine ⟨?_, ?_, ?_⟩ <;>
    simp +decide [calculateCommission, calculateCommissionSpec, catRuleQuery, catRuleSpec,
      defaultRuleQuery, sellerLookup, pyTruthyStr, minBoundRule, electronicsRule,
      List.find?] <;>
    norm_num

/-- C3 counterexample: an inactive coupon whose `expires_at` is strictly in
the past is never found by the active-only lookup, so `apply_coupon`
answers `"Invalid coupon code"`, not the expiry message — refuting
"regardless of the coupon's other fields (including is_active)". -/
theorem c3_counterexample :
    inactiveExpired.expires_at = some 0 ∧ (0 : Int) < 100 ∧
    applyCoupon 100 [inactiveExpired] [] [] 50 "DEAD" none none
      = (0, "Invalid coupon code") ∧
    "Invalid coupon code" ≠ "Coupon has expired" := by
  refine ⟨rfl, by decide, by decide, by decide⟩

/-- C3 (amended): for every coupon that the active-only lookup finds and
whose `starts_at` guard does not fire, if `expires_at` is set and strictly
in the past then `apply_coupon` returns `(0, "Coupon has expired")`,
regardless of usage counters, scope and cart contents. -/
theorem c3_expired_coupon (now : Int) (cs : List Coupon) (us : List CouponUsage)
    (ps : List Product) (total : ℚ) (code : String) (uid : Option String)
    (items : Option (List CartItem)) (c : Coupon)
    (hfind : couponLookup cs code = some c)
    (hstart : startsGuard now c = false)
    (hexp : expiresGuard now c = true) :
    applyCoupon now cs us ps total code uid items = (0, "Coupon has expired") := by
  unfold applyCoupon
  rw [hfind]
  simp [hstart, hexp]

/-- C3 witness: the amended theorem applied to a concrete active, expired
coupon. -/
theorem c3_witness :
    applyCoupon 100 [activeExpired] [] [] 50 "EXP" none none
      = (0, "Coupon has expired") :=
  c3_expired_coupon 100 [activeExpired] [] [] 50 "EXP" none none activeExpired
    (by decide) (by decide) (by decide)

/-- C8: the `try/except` boundaries of `apply_coupon` and
`calculate_commission` never propagate a fault: when the body raises, the
results are `(0, "Error applying coupon")` and
`(10, order_total * 0.1)` respectively; when it does not raise, its value
is returned unchanged. -/
theorem c8_fault_containment (ops : DbOps) (now : Int) (total : ℚ) (code : String)
    (uid : Option String) (items : Option (List CartItem)) (sid : String)
    (cat : Option String) (orderTotal : ℚ) :
    (∀ e, applyCouponBody ops now total code uid items = .error e →
      applyCouponSafe ops now total code uid items = (0, "Error applying coupon")) ∧
    (∀ r, applyCouponBody ops now total code uid items = .ok r →
      applyCouponSafe ops now total code uid items = r) ∧
    (∀ e, calculateCommissionBody ops orderTotal sid cat = .error e →
      calculateCommissionSafe ops orderTotal sid cat = (10, orderTotal * (1 / 10))) ∧
    (∀ r, calculateCommissionBody ops orderTotal sid cat = .ok r →
      calculateCommissionSafe ops orderTotal sid cat = r) := by
  refine ⟨?_, ?_, ?_, ?_⟩ <;> intro x h <;>
    simp [applyCouponSafe, calculateCommissionSafe, h]

/-- C8 witness: with every store read raising, `apply_coupon` returns the
generic error result and `calculate_commission` the 10% fallback. -/
theorem c8_witness :
    applyCouponSafe errOps 0 100 "X" none none = (0, "Error applying coupon") ∧
    calculateCommissionSafe errOps 500 "s1" (some "electronics") = (10, 50) := by
  constructor
  · exact (c8_fault_containment errOps 0 100 "X" none none "s1" (some "electronics") 500).1
      "store unreachable" rfl
  · have h := (c8_fault_containment errOps 0 100 "X" none none "s1"
      (some "electronics") 500).2.2.1 "store unreachable" rfl
    rw [h]
    norm_num

/-- C10: with `user_id = None` the per-user cap is never consulted — the
result of `apply_coupon` is independent of the usage history — and a
coupon whose per-user limit is exhausted for every user in the history
still returns a positive discount. -/
theorem c10_none_user_skips_per_user_cap :
    (∀ (now : Int) (cs : List Coupon) (us1 us2 : List CouponUsage) (ps : List Product)
        (total : ℚ) (code : String) (items : Option (List CartItem)),
      applyCoupon now cs us1 ps total code none items
        = applyCoupon now cs us2 ps total code none items) ∧
    pyTruthyNat perUserCoupon.usage_per_user = true ∧
    perUserCoupon.usage_per_user.getD 0 ≤ userUsageCount exhaustedUsage perUserCoupon.id "u1" ∧
    perUserCoupon.usage_per_user.getD 0 ≤ userUsageCount exhaustedUsage perUserCoupon.id "u2" ∧
    applyCoupon 0 [perUserCoupon] exhaustedUsage [] 100 "PU" none none
      = (10, "Coupon applied successfully") ∧
    0 < (applyCoupon 0 [perUserCoupon] exhaustedUsage [] 100 "PU" none none).1 := by
  have hpu : ∀ (us : List CouponUsage) (c : Coupon), perUserGuard us c none = false := by
    intro us c
    simp [perUserGuard, pyTruthyStr]
  have hconc : applyCoupon 0 [perUserCoupon] exhaustedUsage [] 100 "PU" none none
      = (10, "Coupon applied successfully") := by
    norm_num [applyCoupon, couponLookup, perUserCoupon, baseCoupon, List.find?,
      startsGuard, expiresGuard, usageLimitGuard, perUserGuard, minOrderGuard,
      scopedBranch, pyTruthyStr, pyTruthyNat, pyTruthyQ, pyTruthyList,
      userUsageCount, computeDiscount]
  refine ⟨?_, by decide, by decide, by decide, hconc, by rw [hconc]; norm_num⟩
  intro now cs us1 us2 ps total code items
  unfold applyCoupon
  cases couponLookup cs code with
  | none => rfl
  | some c => simp [hpu]

lemma computeDiscount_le (c : Coupon) (total : ℚ) : computeDiscount c total ≤ total := by
  unfold computeDiscount
  exact min_le_right _ _

lemma minOrderMsg_ne (c : Coupon) :
    minOrderMsg c ≠ "Coupon is not applicable to items in your cart" := by
  intro h
  have h2 := congrArg String.data h
  unfold minOrderMsg at h2
  rw [String.data_append, String.data_append] at h2
  have hM : ("Minimum order amount $").data
      = 'M' :: ("inimum order amount $").data := rfl
  have hC : ("Coupon is not applicable to items in your cart").data
      = 'C' :: ("oupon is not applicable to items in your cart").data := rfl
  rw [hM, hC, List.cons_append] at h2
  have h3 : 'M' = 'C' := (List.cons.injEq _ _ _ _ ▸ h2 : _ ∧ _).1
  exact absurd h3 (by decide)

/-- C2 counterexample: a category coupon over a cart whose single item
matches the scope but has line total 0. The code's `if eligible_total > 0`
guard keeps the full `cart_total` (100), so the 10% coupon returns
discount 10 — not a discount computed against the matching-items subtotal
(which is 0, giving discount 0) as the claim states. -/
theorem c2_counterexample :
    itemMatches [bookProduct] booksCoupon zeroPriceItem = true ∧
    eligibleSubtotal [bookProduct] booksCoupon [zeroPriceItem] = 0 ∧
    applyCoupon 0 [booksCoupon] [] [bookProduct] 100 "CAT" none (some [zeroPriceItem])
      = (10, "Coupon applied successfully") ∧
    computeDiscount booksCoupon (eligibleSubtotal [bookProduct] booksCoupon [zeroPriceItem])
      = 0 ∧
    (10 : ℚ) ≠ 0 := by
  refine ⟨by decide, ?_, ?_, ?_, by norm_num⟩
  · norm_num [eligibleSubtotal, itemMatches, productLookup, itemEligible, booksCoupon,
      baseCoupon, bookProduct, zeroPriceItem, List.find?, List.filter]
  · norm_num [applyCoupon, couponLookup, booksCoupon, baseCoupon, bookProduct,
      zeroPriceItem, List.find?, startsGuard, expiresGuard, usageLimitGuard,
      perUserGuard, minOrderGuard, scopedBranch, pyTruthyStr, pyTruthyNat, pyTruthyQ,
      pyTruthyList, userUsageCount, computeDiscount, scopeScan, scopeStep,
      productLookup, itemEligible]
  · norm_num [computeDiscount, eligibleSubtotal, itemMatches, productLookup,
      itemEligible, booksCoupon, baseCoupon, bookProduct, zeroPriceItem, List.find?,
      List.filter, pyTruthyQ]

/-- C2 (amended): for a non-global coupon that passes every earlier check,
over a non-empty cart: if no item's product matches the scope predicate
the result is the scope-mismatch message with discount 0; if some item
matches and the matching-items subtotal is positive, the discount is
computed against that subtotal; if some item matches but the matching
subtotal is not positive, the code falls back to the full `cart_total`
(the `if eligible_total > 0` guard). -/
theorem c2_scope_partition (now : Int) (cs : List Coupon) (us : List CouponUsage)
    (ps : List Product) (total : ℚ) (code : String) (uid : Option String)
    (l : List CartItem) (c : Coupon)
    (hfind : couponLookup cs code = some c)
    (h1 : startsGuard now c = false) (h2 : expiresGuard now c = false)
    (h3 : usageLimitGuard c = false) (h4 : perUserGuard us c uid = false)
    (h5 : minOrderGuard total c = false)
    (hscope : (c.scope == "global") = false) (hl : l ≠ []) :
    (l.any (itemMatches ps c) = false →
      applyCoupon now cs us ps total code uid (some l)
        = (0, "Coupon is not applicable to items in your cart")) ∧
    (l.any (itemMatches ps c) = true → 0 < eligibleSubtotal ps c l →
      applyCoupon now cs us ps total code uid (some l)
        = (computeDiscount c (eligibleSubtotal ps c l), "Coupon applied successfully")) ∧
    (l.any (itemMatches ps c) = true → ¬ 0 < eligibleSubtotal ps c l →
      applyCoupon now cs us ps total code uid (some l)
        = (computeDiscount c total, "Coupon applied successfully")) := by
  have hempty : l.isEmpty = false := by
    cases l with
    | nil => exact absurd rfl hl
    | cons hd tl => rfl
  have hbranch : scopedBranch c (some l) = true := by
    simp [scopedBranch, pyTruthyList, bne, hscope, hempty]
  refine ⟨?_, ?_, ?_⟩
  · intro hA
    have hscan : (scopeScan ps c l).1 = false := by rw [scopeScan_fst]; exact hA
    unfold applyCoupon
    rw [hfind]
    simp [h1, h2, h3, h4, h5, hbranch, hscan]
  · intro hA hS
    have h6 : scopeRejected ps c (some l) = false := by
      simp [scopeRejected, hbranch, scopeScan_fst, hA]
    rw [applyCoupon_success_form now cs us ps total code uid (some l) c hfind h1 h2 h3 h4
      h5 h6]
    have hT : effectiveTotal ps c (some l) total = eligibleSubtotal ps c l := by
      simp [effectiveTotal, hbranch, scopeScan_snd, hS]
    rw [hT]
  · intro hA hS
    have h6 : scopeRejected ps c (some l) = false := by
      simp [scopeRejected, hbranch, scopeScan_fst, hA]
    rw [applyCoupon_success_form now cs us ps total code uid (some l) c hfind h1 h2 h3 h4
      h5 h6]
    have hT : effectiveTotal ps c (some l) total = total := by
      simp [effectiveTotal, hbranch, scopeScan_snd, hS]
    rw [hT]

/-- C2 witness: the amended theorem applied to a one-item matching cart
with positive line total 30 (the discount is 10% of 30, not of 100). -/
theorem c2_witness :
    applyCoupon 0 [booksCoupon] [] [bookProduct] 100 "CAT" none (some [posPriceItem])
      = (computeDiscount booksCoupon (eligibleSubtotal [bookProduct] booksCoupon [posPriceItem]),
         "Coupon applied successfully") := by
  refine (c2_scope_partition 0 [booksCoupon] [] [bookProduct] 100 "CAT" none
    [posPriceItem] booksCoupon rfl (by decide) (by decide) (by decide) (by decide)
    (by decide) (by decide) (by decide)).2.1 (by decide) ?_
  norm_num [eligibleSubtotal, itemMatches, productLookup, itemEligible, booksCoupon,
    baseCoupon, bookProduct, posPriceItem, List.find?, List.filter]

/-- C6 counterexample: a percentage coupon whose `max_discount` is present
but equal to 0 is not capped — Python truthiness skips the cap for `0.0` —
so the code returns 10 (10% of 100) while the claim's formula
`min(total * value/100, M, total)` gives 0. -/
theorem c6_counterexample :
    maxZeroCoupon.max_discount = some 0 ∧
    applyCoupon 0 [maxZeroCoupon] [] [] 100 "MZ" none none
      = (10, "Coupon applied successfully") ∧
    min (min ((100 : ℚ) * (10 / 100)) 0) 100 = 0 ∧
    (10 : ℚ) ≠ 0 := by
  refine ⟨rfl, ?_, by norm_num, by norm_num⟩
  norm_num [applyCoupon, couponLookup, maxZeroCoupon, baseCoupon, List.find?,
    startsGuard, expiresGuard, usageLimitGuard, perUserGuard, minOrderGuard,
    scopedBranch, pyTruthyStr, pyTruthyNat, pyTruthyQ, pyTruthyList,
    userUsageCount, computeDiscount]

/-- C6 (amended): for a percentage coupon that passes every check, with
`T` the possibly scope-narrowed total: when `max_discount` is set and
nonzero the discount is `min(T * value/100, max_discount, T)`; when it is
unset — or set to 0, which Python truthiness treats as unset — the
discount is `min(T * value/100, T)`. The spec's `SAVE10` end-to-end
example holds. -/
theorem c6_percentage_discount (now : Int) (cs : List Coupon) (us : List CouponUsage)
    (ps : List Product) (total : ℚ) (code : String) (uid : Option String)
    (items : Option (List CartItem)) (c : Coupon)
    (hfind : couponLookup cs code = some c)
    (h1 : startsGuard now c = false) (h2 : expiresGuard now c = false)
    (h3 : usageLimitGuard c = false) (h4 : perUserGuard us c uid = false)
    (h5 : minOrderGuard total c = false)
    (h6 : scopeRejected ps c items = false)
    (htype : c.ctype = "percentage") :
    (∀ M : ℚ, c.max_discount = some M → M ≠ 0 →
      applyCoupon now cs us ps total code uid items
        = (min (min (effectiveTotal ps c items total * (c.value / 100)) M)
            (effectiveTotal ps c items total), "Coupon applied successfully")) ∧
    (c.max_discount = none →
      applyCoupon now cs us ps total code uid items
        = (min (effectiveTotal ps c items total * (c.value / 100))
            (effectiveTotal ps c items total), "Coupon applied successfully")) ∧
    (c.max_discount = some 0 →
      applyCoupon now cs us ps total code uid items
        = (min (effectiveTotal ps c items total * (c.value / 100))
            (effectiveTotal ps c items total), "Coupon applied successfully")) ∧
    applyCoupon 0 [save10] [] [] 250 "SAVE10" none none
      = (20, "Coupon applied successfully") := by
  have masterEq := applyCoupon_success_form now cs us ps total code uid items c hfind
    h1 h2 h3 h4 h5 h6
  refine ⟨?_, ?_, ?_, ?_⟩
  · intro M hM hM0
    rw [masterEq]
    simp +decide [computeDiscount, htype, pyTruthyQ, hM, hM0]
  · intro hM
    rw [masterEq]
    simp +decide [computeDiscount, htype, pyTruthyQ, hM]
  · intro hM
    rw [masterEq]
    simp +decide [computeDiscount, htype, pyTruthyQ, hM]
  · norm_num [applyCoupon, couponLookup, save10, baseCoupon, List.find?,
      startsGuard, expiresGuard, usageLimitGuard, perUserGuard, minOrderGuard,
      scopedBranch, pyTruthyStr, pyTruthyNat, pyTruthyQ, pyTruthyList,
      userUsageCount, computeDiscount]

/-- C6 witness: the amended theorem applied to `SAVE10` itself (set,
nonzero cap of 20 against a 250 cart). -/
theorem c6_witness :
    applyCoupon 0 [save10] [] [] 250 "SAVE10" none none
      = (min (min (effectiveTotal [] save10 none 250 * (save10.value / 100)) 20)
          (effectiveTotal [] save10 none 250), "Coupon applied successfully") :=
  (c6_percentage_discount 0 [save10] [] [] 250 "SAVE10" none none save10 rfl
    (by decide) (by decide) (by decide) (by decide) (by decide) (by decide) rfl).1
    20 rfl (by norm_num)

/-- C7: for a fixed coupon that passes every check the discount is
`min(value, T)` with `T` the possibly scope-narrowed total, and for every
coupon type the returned discount never exceeds `T` (the final
`min(discount, cart_total)` cap). -/
theorem c7_fixed_discount (now : Int) (cs : List Coupon) (us : List CouponUsage)
    (ps : List Product) (total : ℚ) (code : String) (uid : Option String)
    (items : Option (List CartItem)) (c : Coupon)
    (hfind : couponLookup cs code = some c)
    (h1 : startsGuard now c = false) (h2 : expiresGuard now c = false)
    (h3 : usageLimitGuard c = false) (h4 : perUserGuard us c uid = false)
    (h5 : minOrderGuard total c = false)
    (h6 : scopeRejected ps c items = false) :
    (c.ctype = "fixed" →
      applyCoupon now cs us ps total code uid items
        = (min c.value (effectiveTotal ps c items total), "Coupon applied successfully")) ∧
    (applyCoupon now cs us ps total code uid items).1
      ≤ effectiveTotal ps c items total := by
  have masterEq := applyCoupon_success_form now cs us ps total code uid items c hfind
    h1 h2 h3 h4 h5 h6
  constructor
  · intro htype
    rw [masterEq]
    simp +decide [computeDiscount, htype, min_comm]
  · rw [masterEq]
    exact computeDiscount_le c (effectiveTotal ps c items total)

/-- C7 witness: a concrete fixed coupon of value 5 against a cart of 100. -/
theorem c7_witness :
    applyCoupon 0 [fixed5Coupon] [] [] 100 "F5" none none
      = (min fixed5Coupon.value (effectiveTotal [] fixed5Coupon none 100),
         "Coupon applied successfully") ∧
    (applyCoupon 0 [fixed5Coupon] [] [] 100 "F5" none none).1
      ≤ effectiveTotal [] fixed5Coupon none 100 := by
  have h := c7_fixed_discount 0 [fixed5Coupon] [] [] 100 "F5" none none fixed5Coupon
    rfl (by decide) (by decide) (by decide) (by decide) (by decide) (by decide)
  exact ⟨h.1 rfl, h.2⟩

/-- C9: with `cart_items` equal to `None` or the empty list the scoped
branch is skipped — the scope-mismatch message can never be returned, and
when the coupon is found and every guard passes the discount is computed
on the full `cart_total` with the success message, no cart item being
consulted. -/
theorem c9_empty_cart_skips_scope (now : Int) (cs : List Coupon) (us : List CouponUsage)
    (ps : List Product) (total : ℚ) (code : String) (uid : Option String)
    (items : Option (List CartItem))
    (hitems : items = none ∨ items = some []) :
    (applyCoupon now cs us ps total code uid items).2
      ≠ "Coupon is not applicable to items in your cart" ∧
    (∀ c, couponLookup cs code = some c →
      startsGuard now c = false → expiresGuard now c = false →
      usageLimitGuard c = false → perUserGuard us c uid = false →
      minOrderGuard total c = false →
      applyCoupon now cs us ps total code uid items
        = (computeDiscount c total, "Coupon applied successfully")) := by
  have hfalsy : pyTruthyList items = false := by
    rcases hitems with h | h <;> simp [pyTruthyList, h]
  have hbranch : ∀ c : Coupon, scopedBranch c items = false := by
    intro c
    simp [scopedBranch, hfalsy]
  constructor
  · cases hc : couponLookup cs code with
    | none => simp +decide [applyCoupon, hc]
    | some c =>
        unfold applyCoupon
        rw [hc]
        simp only [hbranch c, Bool.false_eq_true, if_false]
        split_ifs <;> simp +decide [minOrderMsg_ne c]
  · intro c hfind g1 g2 g3 g4 g5
    have h6 : scopeRejected ps c items = false := by
      simp [scopeRejected, hbranch c]
    rw [applyCoupon_success_form now cs us ps total code uid items c hfind g1 g2 g3 g4
      g5 h6]
    have hT : effectiveTotal ps c items total = total := by
      simp [effectiveTotal, hbranch c]
    rw [hT]

/-- C9 witness: a seller-scoped coupon applied with `cart_items = None`
passes the scope check untested and discounts the full cart total. -/
theorem c9_witness :
    (applyCoupon 0 [booksCoupon] [] [bookProduct] 100 "CAT" none none).2
      ≠ "Coupon is not applicable to items in your cart" ∧
    applyCoupon 0 [booksCoupon] [] [bookProduct] 100 "CAT" none none
      = (computeDiscount booksCoupon 100, "Coupon applied successfully") := by
  have h := c9_empty_cart_skips_scope 0 [booksCoupon] [] [bookProduct] 100 "CAT" none
    none (Or.inl rfl)
  exact ⟨h.1, h.2 booksCoupon rfl (by decide) (by decide) (by decide) (by decide)
    (by decide)⟩

lemma pairMatch_iff (identifier purpose : String) (r : VRecord) :
    pairMatch identifier purpose r = true ↔
      r.identifier = identifier ∧ r.purpose = purpose := by
  simp [pairMatch]

lemma vMatch_iff (hash : String → String) (now : Int) (identifier code purpose : String)
    (r : VRecord) :
    vMatch hash now identifier code purpose r = true ↔
      r.identifier = identifier ∧ r.purpose = purpose ∧ r.hashed_code = hash code ∧
        r.verified = false ∧ now < r.expires_at := by
  unfold vMatch
  simp only [Bool.and_eq_true, beq_iff_eq, Bool.not_eq_true', decide_eq_true_eq]
  tauto

lemma verifyCode_snd (hash : String → String) (now : Int) (db : List VRecord)
    (identifier code purpose : String) :
    (verifyCode hash now db identifier code purpose).2
      = db.any (vMatch hash now identifier code purpose) := by
  unfold verifyCode
  by_cases h : db.any (vMatch hash now identifier code purpose) = true
  · simp [h]
  · simp only [Bool.not_eq_true] at h
    simp [h]

lemma verifyCode_fst_of_match (hash : String → String) (now : Int) (db : List VRecord)
    (identifier code purpose : String)
    (h : db.any (vMatch hash now identifier code purpose) = true) :
    (verifyCode hash now db identifier code purpose).1
      = updateFirst (vMatch hash now identifier code purpose)
          (fun r => { r with verified := true, verified_at := some now }) db := by
  simp [verifyCode, h]

lemma verifyCode_fst_of_miss (hash : String → String) (now : Int) (db : List VRecord)
    (identifier code purpose : String)
    (h : db.any (vMatch hash now identifier code purpose) = false) :
    (verifyCode hash now db identifier code purpose).1
      = updateFirst (pairMatch identifier purpose)
          (fun r => { r with attempts := r.attempts + 1 }) db := by
  simp [verifyCode, h]

/-- C4: `verify_code` succeeds exactly when the store holds a record for
the pair whose hash matches the supplied code, still unverified, with
`expires_at` strictly in the future; success marks that record verified
with a `verified_at` timestamp; failure increments the attempts counter
on the first record for the pair when one exists; under the one-record-
per-pair invariant a code verified once fails every later verify with the
same code; and when every record for the pair has `expires_at ≤ now` the
verify fails (strict expiry). -/
theorem c4_verify_code (hash : String → String) (now : Int) (db : List VRecord)
    (identifier code purpose : String) :
    ((verifyCode hash now db identifier code purpose).2 = true ↔
      ∃ r ∈ db, r.identifier = identifier ∧ r.purpose = purpose ∧
        r.hashed_code = hash code ∧ r.verified = false ∧ now < r.expires_at) ∧
    ((verifyCode hash now db identifier code purpose).2 = true →
      ∃ r ∈ (verifyCode hash now db identifier code purpose).1,
        r.identifier = identifier ∧ r.purpose = purpose ∧ r.hashed_code = hash code ∧
          r.verified = true ∧ r.verified_at = some now) ∧
    ((verifyCode hash now db identifier code purpose).2 = false →
      ((verifyCode hash now db identifier code purpose).1.map VRecord.attempts).sum
        = (db.map VRecord.attempts).sum
            + (if db.any (pairMatch identifier purpose) then 1 else 0)) ∧
    ((db.filter (pairMatch identifier purpose)).length ≤ 1 →
      (verifyCode hash now db identifier code purpose).2 = true →
      ∀ t2 : Int,
        (verifyCode hash t2 (verifyCode hash now db identifier code purpose).1
          identifier code purpose).2 = false) ∧
    ((∀ r ∈ db, r.identifier = identifier → r.purpose = purpose →
        r.expires_at ≤ now) →
      (verifyCode hash now db identifier code purpose).2 = false) := by
  refine ⟨?_, ?_, ?_, ?_, ?_⟩
  · rw [verifyCode_snd, List.any_eq_true]
    constructor
    · rintro ⟨r, hr, hm⟩
      exact ⟨r, hr, (vMatch_iff hash now identifier code purpose r).mp hm⟩
    · rintro ⟨r, hr, hm⟩
      exact ⟨r, hr, (vMatch_iff hash now identifier code purpose r).mpr hm⟩
  · intro hs
    have hany : db.any (vMatch hash now identifier code purpose) = true := by
      rw [verifyCode_snd] at hs
      exact hs
    rw [verifyCode_fst_of_match hash now db identifier code purpose hany]
    obtain ⟨r, hr, hpair, hhash, hver, hvat⟩ :=
      updateFirst_success_mem hash now identifier code purpose db hany
    obtain ⟨hi, hp⟩ := (pairMatch_iff identifier purpose r).mp hpair
    exact ⟨r, hr, hi, hp, hhash, hver, hvat⟩
  · intro hf
    have hany : db.any (vMatch hash now identifier code purpose) = false := by
      rw [verifyCode_snd] at hf
      exact hf
    rw [verifyCode_fst_of_miss hash now db identifier code purpose hany]
    exact updateFirst_attempts_sum identifier purpose db
  · intro hlen hs t2
    have hany : db.any (vMatch hash now identifier code purpose) = true := by
      rw [verifyCode_snd] at hs
      exact hs
    rw [verifyCode_snd, verifyCode_fst_of_match hash now db identifier code purpose hany]
    exact verify_once_aux hash now t2 identifier code purpose db hlen hany
  · intro hexp
    rw [verifyCode_snd]
    rw [List.any_eq_false]
    intro r hr
    intro hv
    have hfields := (vMatch_iff hash now identifier code purpose r).mp hv
    have := hexp r hr hfields.1 hfields.2.1
    exact absurd hfields.2.2.2.2 (not_lt.mpr this)

/-- C4 witness: a stored record is verified once at t = 5, a second verify
of the same code fails, and a verify at the exact expiry instant 600
fails. -/
theorem c4_witness :
    (verifyCode (fun s => s) 5 [sampleRecord] "a" "1" "v").2 = true ∧
    (verifyCode (fun s => s) 7
      (verifyCode (fun s => s) 5 [sampleRecord] "a" "1" "v").1 "a" "1" "v").2 = false ∧
    (verifyCode (fun s => s) 600 [sampleRecord] "a" "1" "v").2 = false := by
  refine ⟨by decide, ?_, ?_⟩
  · exact (c4_verify_code (fun s => s) 5 [sampleRecord] "a" "1" "v").2.2.2.1
      (by decide) (by decide) 7
  · refine (c4_verify_code (fun s => s) 600 [sampleRecord] "a" "1" "v").2.2.2.2 ?_
    intro r hr h1 h2
    have hr' : r = sampleRecord := by simpa using hr
    subst hr'
    decide

/-- C5: `store_verification_code` reports success and leaves exactly one
record for `(identifier, purpose)` — the fresh one, which stores only the
hash of the code, with `created_at = now`, `expires_at = now + 10
minutes`, `verified = false`, `attempts = 0` — so at most one unconsumed
record per pair exists after any store, and verifying a superseded code
(one whose hash differs from the new code's) afterwards fails. -/
theorem c5_store_code (hash : String → String) (now : Int) (db : List VRecord)
    (identifier code method purpose : String) :
    (storeVerificationCode hash now db identifier code method purpose).2 = true ∧
    (storeVerificationCode hash now db identifier code method purpose).1.filter
        (pairMatch identifier purpose)
      = [freshRecord hash now identifier code method purpose] ∧
    ((storeVerificationCode hash now db identifier code method purpose).1.filter
        (pairMatch identifier purpose)).length ≤ 1 ∧
    (freshRecord hash now identifier code method purpose).hashed_code = hash code ∧
    (freshRecord hash now identifier code method purpose).created_at = now ∧
    (freshRecord hash now identifier code method purpose).expires_at = now + tenMinutes ∧
    (freshRecord hash now identifier code method purpose).verified = false ∧
    (freshRecord hash now identifier code method purpose).attempts = 0 ∧
    (∀ (oldCode : String) (t2 : Int), hash oldCode ≠ hash code →
      (verifyCode hash t2
        (storeVerificationCode hash now db identifier code method purpose).1
        identifier oldCode purpose).2 = false) := by
  have hfrpair : pairMatch identifier purpose
      (freshRecord hash now identifier code method purpose) = true := by
    simp [pairMatch, freshRecord]
  have hkept : (db.filter (fun r => !pairMatch identifier purpose r)).filter
      (pairMatch identifier purpose) = [] := by
    rw [List.filter_eq_nil_iff]
    intro r hr
    have := (List.mem_filter.mp hr).2
    simp only [Bool.not_eq_true'] at this
    simp [this]
  have hfilter : (storeVerificationCode hash now db identifier code method purpose).1.filter
      (pairMatch identifier purpose)
      = [freshRecord hash now identifier code method purpose] := by
    unfold storeVerificationCode
    rw [List.filter_append, hkept]
    simp [hfrpair]
  refine ⟨rfl, hfilter, by rw [hfilter]; simp, rfl, rfl, rfl, rfl, rfl, ?_⟩
  intro oldCode t2 hne
  rw [verifyCode_snd, List.any_eq_false]
  intro r hr
  unfold storeVerificationCode at hr
  rcases List.mem_append.mp hr with hker | hfr
  · have hp : pairMatch identifier purpose r = false := by
      have := (List.mem_filter.mp hker).2
      simpa using this
    simp [vMatch_eq_false_of_pairMatch hash t2 identifier oldCode purpose r hp]
  · have hr' : r = freshRecord hash now identifier code method purpose := by
      simpa using hfr
    subst hr'
    have hbeq : (hash code == hash oldCode) = false := by
      simp [beq_eq_false_iff_ne]
      intro h
      exact hne h.symm
    simp [vMatch, freshRecord, hbeq]

/-- C5 witness: storing a second code "2" for the pair supersedes the
stored record for code "1"; a later verify of "1" fails. -/
theorem c5_witness :
    (storeVerificationCode (fun s => s) 50 [sampleRecord] "a" "2" "email" "v").2 = true ∧
    (verifyCode (fun s => s) 60
      (storeVerificationCode (fun s => s) 50 [sampleRecord] "a" "2" "email" "v").1
      "a" "1" "v").2 = false := by
  refine ⟨(c5_store_code (fun s => s) 50 [sampleRecord] "a" "2" "email" "v").1, ?_⟩
  exact (c5_store_code (fun s => s) 50 [sampleRecord] "a" "2" "email" "v").2.2.2.2.2.2.2.2
    "1" 60 (by decide)

lemma pureOps_findProduct (coupons : List Coupon) (usage : List CouponUsage)
    (products : List Product) (rules : List CommissionRule) (sellers : List SellerProfile)
    (pid : String) :
    (pureOps coupons usage products rules sellers).findProduct pid
      = Except.ok (productLookup products pid) := rfl

lemma pureOps_findCoupon (coupons : List Coupon) (usage : List CouponUsage)
    (products : List Product) (rules : List CommissionRule) (sellers : List SellerProfile)
    (code : String) :
    (pureOps coupons usage products rules sellers).findCoupon code
      = Except.ok (couponLookup coupons code) := rfl

lemma pureOps_countUsage (coupons : List Coupon) (usage : List CouponUsage)
    (products : List Product) (rules : List CommissionRule) (sellers : List SellerProfile)
    (cid uid : String) :
    (pureOps coupons usage products rules sellers).countUsage cid uid
      = Except.ok (userUsageCount usage cid uid) := rfl

lemma pureOps_findCatRule (coupons : List Coupon) (usage : List CouponUsage)
    (products : List Product) (rules : List CommissionRule) (sellers : List SellerProfile)
    (cat : Option String) (total : ℚ) :
    (pureOps coupons usage products rules sellers).findCatRule cat total
      = Except.ok (catRuleQuery rules cat total) := rfl

lemma pureOps_findDefaultRule (coupons : List Coupon) (usage : List CouponUsage)
    (products : List Product) (rules : List CommissionRule) (sellers : List SellerProfile) :
    (pureOps coupons usage products rules sellers).findDefaultRule ()
      = Except.ok (defaultRuleQuery rules) := rfl

lemma pureOps_findSeller (coupons : List Coupon) (usage : List CouponUsage)
    (products : List Product) (rules : List CommissionRule) (sellers : List SellerProfile)
    (sid : String) :
    (pureOps coupons usage products rules sellers).findSeller sid
      = Except.ok (sellerLookup sellers sid) := rfl

lemma foldlM_scan_pure (coupons : List Coupon) (usage : List CouponUsage)
    (products : List Product) (rules : List CommissionRule) (sellers : List SellerProfile)
    (c : Coupon) :
    ∀ (l : List CartItem) (acc : Bool × ℚ),
      l.foldlM (fun acc item => do
        let pOpt ← (pureOps coupons usage products rules sellers).findProduct item.product_id
        match pOpt with
        | none => pure acc
        | some p =>
            if itemEligible c p then pure (true, acc.2 + (item.quantity : ℚ) * item.price)
            else pure acc) acc
        = Except.ok (l.foldl (scopeStep products c) acc) := by
  intro l
  induction l with
  | nil => intro acc; rfl
  | cons hd tl ih =>
      intro acc
      rw [List.foldlM_cons, List.foldl_cons]
      cases hp : productLookup products hd.product_id with
      | none =>
          have hstep : scopeStep products c acc hd = acc := by
            unfold scopeStep
            rw [hp]
          rw [hstep]
          simp only [pureOps_findProduct, hp, bind, Except.bind, pure, Except.pure]
          exact ih acc
      | some p =>
          by_cases he : itemEligible c p = true
          · have hstep : scopeStep products c acc hd
                = (true, acc.2 + (hd.quantity : ℚ) * hd.price) := by
              unfold scopeStep
              rw [hp]
              simp [he]
            rw [hstep]
            simp only [pureOps_findProduct, hp, he, bind, Except.bind, pure, Except.pure, if_true]
            exact ih _
          · have he' : itemEligible c p = false := by simpa using he
            have hstep : scopeStep products c acc hd = acc := by
              unfold scopeStep
              rw [hp]
              simp [he']
            rw [hstep]
            simp only [pureOps_findProduct, hp, he', bind, Except.bind, pure, Except.pure,
              Bool.false_eq_true, if_false]
            exact ih acc

lemma scopeScanM_pure (coupons : List Coupon) (usage : List CouponUsage)
    (products : List Product) (rules : List CommissionRule) (sellers : List SellerProfile)
    (c : Coupon) (items : List CartItem) :
    scopeScanM (pureOps coupons usage products rules sellers) c items
      = Except.ok (scopeScan products c items) := by
  unfold scopeScanM scopeScan
  exact foldlM_scan_pure coupons usage products rules sellers c items (false, 0)

/-- Coherence of the two translations of `calculate_commission`: on
fault-free reads the `try`-body model agrees with the pure model. -/
lemma calculateCommissionSafe_pure (coupons : List Coupon) (usage : List CouponUsage)
    (products : List Product) (rules : List CommissionRule) (sellers : List SellerProfile)
    (order_total : ℚ) (seller_id : String) (category : Option String) :
    calculateCommissionSafe (pureOps coupons usage products rules sellers)
        order_total seller_id category
      = calculateCommission rules sellers order_total seller_id category := by
  unfold calculateCommissionSafe calculateCommissionBody calculateCommission
  by_cases hc : pyTruthyStr category = true <;>
    simp only [hc, Bool.false_eq_true, if_true, if_false, pureOps_findCatRule,
      pureOps_findDefaultRule, pureOps_findSeller, bind, Except.bind,
      pure, Except.pure] <;>
    cases catRuleQuery rules category order_total <;>
    cases defaultRuleQuery rules <;>
    cases sellerLookup sellers seller_id <;>
    rfl

/-- Coherence of the two translations of `apply_coupon`: on fault-free
reads the `try`-body model agrees with the pure model. -/
lemma applyCouponSafe_pure (now : Int) (coupons : List Coupon) (usage : List CouponUsage)
    (products : List Product) (rules : List CommissionRule) (sellers : List SellerProfile)
    (cart_total : ℚ) (coupon_code : String) (user_id : Option String)
    (cart_items : Option (List CartItem)) :
    applyCouponSafe (pureOps coupons usage products rules sellers) now cart_total
        coupon_code user_id cart_items
      = applyCoupon now coupons usage products cart_total coupon_code user_id
          cart_items := by
  unfold applyCouponSafe applyCouponBody applyCoupon
  cases hc : couponLookup coupons coupon_code with
  | none => simp [pureOps_findCoupon, hc, bind, Except.bind, pure, Except.pure]
  | some c =>
      simp only [pureOps_findCoupon, pureOps_countUsage, hc, bind, Except.bind, pure,
        Except.pure]
      by_cases g1 : startsGuard now c = true
      · simp [g1]
      · simp only [g1, Bool.false_eq_true, if_false]
        by_cases g2 : expiresGuard now c = true
        · simp [g2]
        · simp only [g2, Bool.false_eq_true, if_false]
          by_cases g3 : usageLimitGuard c = true
          · simp [g3]
          · simp only [g3, Bool.false_eq_true, if_false]
            by_cases g4 : (pyTruthyStr user_id && pyTruthyNat c.usage_per_user) = true
            · simp only [g4, if_true]
              by_cases g5 : decide (c.usage_per_user.getD 0
                  ≤ userUsageCount usage c.id (user_id.getD "")) = true
              · have hguard : perUserGuard usage c user_id = true := by
                  unfold perUserGuard
                  rw [Bool.and_eq_true] at g4
                  rw [g4.1, g4.2, g5]
                  rfl
                simp [g5, hguard]
              · have g5' : decide (c.usage_per_user.getD 0
                    ≤ userUsageCount usage c.id (user_id.getD "")) = false := by
                  simpa using g5
                have hguard : perUserGuard usage c user_id = false := by
                  unfold perUserGuard
                  rw [g5']
                  simp
                simp only [g5', Bool.false_eq_true, if_false, hguard]
                by_cases g6 : minOrderGuard cart_total c = true
                · simp [g6]
                · simp only [g6, Bool.false_eq_true, if_false]
                  by_cases g7 : scopedBranch c cart_items = true
                  · simp only [g7, if_true,
                      scopeScanM_pure coupons usage products rules sellers c]
                    by_cases g8 : (scopeScan products c (cart_items.getD [])).1 = true
                    · simp only [g8, Bool.not_true, Bool.false_eq_true, if_false]
                      by_cases g9 : (scopeScan products c (cart_items.getD [])).2 > 0
                      · simp [g9]
                      · simp [g8, g9]
                    · have g8' : (scopeScan products c (cart_items.getD [])).1 = false := by
                        simpa using g8
                      simp [g8']
                  · simp [g7]
            · have g4' : (pyTruthyStr user_id && pyTruthyNat c.usage_per_user) = false := by
                simpa using g4
              have hguard : perUserGuard usage c user_id = false := by
                unfold perUserGuard
                rw [Bool.and_eq_false_iff] at g4'
                rcases g4' with h | h <;> simp [h]
              simp only [g4', Bool.false_eq_true, if_false, hguard]
              by_cases g6 : minOrderGuard cart_total c = true
              · simp [g6]
              · simp only [g6, Bool.false_eq_true, if_false]
                by_cases g7 : scopedBranch c cart_items = true
                · simp only [g7, if_true,
                    scopeScanM_pure coupons usage products rules sellers c]
                  by_cases g8 : (scopeScan products c (cart_items.getD [])).1 = true
                  · simp only [g8, Bool.not_true, Bool.false_eq_true, if_false]
                    by_cases g9 : (scopeScan products c (cart_items.getD [])).2 > 0
                    · simp [g9]
                    · simp [g8, g9]
                  · have g8' : (scopeScan products c (cart_items.getD [])).1 = false := by
                      simpa using g8
                    simp [g8']
                · simp [g7]
